import Mathlib

/-!
Verification of the PostgreSQL MCP gateway (`src/server.py`).

The file gives a shallow embedding of the two public operations,
`execute_sql` and `list_databases`, together with the configuration
loading (`load_config`), connection acquisition (`get_connection`,
embedded as `connAttempt` plus the environment's `connect` field) and
the read-only classifier (`is_read_only_query`).

The external world (the psycopg2 driver and the PostgreSQL server) is
modelled by an environment: `DbEnv` says whether connecting succeeds
and what each executed statement does (raise a `psycopg2.Error`, raise
another exception, produce a described result set, or produce no
result set with a driver-reported `rowcount`).  Every run of an
operation returns both its response value and an observation `Trace`
recording connection acquisitions, `conn.close()` calls, commits, the
statements executed in order, and the connect-level timeout passed to
the driver.
-/

/-- A cell value in a result row (the dynamic values psycopg2 hands back). -/
inductive PgValue where
  | nullv
  | intv (n : Int)
  | strv (s : String)
  | boolv (b : Bool)
deriving DecidableEq

/-- A result row: the `RealDictCursor` mapping from column name to value. -/
abbrev Row := List (String × PgValue)

/-- The parsed `config.json` dictionary.  Every key may be absent:
`config['k']` on an absent key raises `KeyError`, `config.get('k', d)`
falls back to the default. -/
structure Config where
  host : Option String
  port : Option Nat
  user : Option String
  password : Option String
  read_only : Option Bool
  query_timeout : Option Nat
  max_rows : Option Nat
deriving DecidableEq

/-- The state of the `config.json` file at startup. -/
inductive ConfigFile where
  | missing
  | malformed (msg : String)
  | parsed (cfg : Config)
deriving DecidableEq

/-- `load_config` (src/server.py:14-23): a missing file
(`FileNotFoundError`) and invalid JSON (`JSONDecodeError`) are logged
and re-raised; any successfully parsed JSON object is returned as is,
with no validation of its fields. -/
def load_config : ConfigFile → Except String Config
  | ConfigFile.missing => Except.error "FileNotFoundError"
  | ConfigFile.malformed m => Except.error ("JSONDecodeError: " ++ m)
  | ConfigFile.parsed cfg => Except.ok cfg

/-- Module import runs `config = load_config()` (src/server.py:25); the
process starts serving exactly when that call does not raise. -/
def startupSucceeds (f : ConfigFile) : Bool :=
  (load_config f).isOk

/-- A single quote character, used to render Python `str(KeyError(k))`,
which is the key wrapped in single quotes. -/
def pyQuote : String := String.mk [Char.ofNat 39]

/-- Python `str(KeyError(field))`. -/
def keyErrText (field : String) : String := pyQuote ++ field ++ pyQuote

/-- Evaluating the argument tuple of `psycopg2.connect` inside
`get_connection` (src/server.py:33-39): the dict accesses
`config['host']`, `config['port']`, `config['user']`,
`config['password']` are evaluated in that order, and the first absent
key raises `KeyError` before any connection is attempted. -/
inductive AcquireStep where
  | keyErr (field : String)
  | proceed (host : String) (port : Nat) (user : String) (password : String)
deriving DecidableEq

def connAttempt (cfg : Config) : AcquireStep :=
  match cfg.host with
  | none => AcquireStep.keyErr "host"
  | some h =>
    match cfg.port with
    | none => AcquireStep.keyErr "port"
    | some p =>
      match cfg.user with
      | none => AcquireStep.keyErr "user"
      | some u =>
        match cfg.password with
        | none => AcquireStep.keyErr "password"
        | some pw => AcquireStep.proceed h p u pw

/-- Python whitespace for `str.strip()` (ASCII part). -/
def isPyWs (c : Char) : Bool :=
  c = ' ' || c = '\t' || c = '\n' || c = '\r' || c = Char.ofNat 11 || c = Char.ofNat 12

/-- `str.strip()`: drop leading and trailing whitespace. -/
def pyStrip (cs : List Char) : List Char :=
  ((cs.dropWhile isPyWs).reverse.dropWhile isPyWs).reverse

/-- `str.startswith(p)` on character lists. -/
def listStartsWith : List Char → List Char → Bool
  | _, [] => true
  | [], _ :: _ => false
  | c :: cs, p :: ps => c == p && listStartsWith cs ps

/-- The `safe_starts` tuple (src/server.py:50). -/
def safeStarts : List String := ["SELECT", "SHOW", "DESCRIBE", "EXPLAIN", "WITH"]

/-- `is_read_only_query` (src/server.py:46-51): strip, uppercase, and
test whether the result starts with any of the safe keywords. -/
def is_read_only_query (query : String) : Bool :=
  let q := (pyStrip query.toList).map Char.toUpper
  safeStarts.any (fun p => listStartsWith q p.toList)

/-- Outcome of `cursor.execute(stmt)` for one statement, as decided by
the driver and server. -/
inductive ExecOutcome where
  | raiseDb (msg : String)
  | raiseOther (msg : String)
  | resultSet (cols : List String) (allRows : List Row)
  | noResult (rowcount : Int)
deriving DecidableEq

/-- The external database world for `execute_sql`: whether
`psycopg2.connect` succeeds (with which error message), and what each
statement text does when executed.  In the `resultSet` case
`cursor.description` holds `cols` and the client-side cursor holds
`allRows`, so `cursor.rowcount = allRows.length` and
`cursor.fetchmany(n)` returns `allRows.take n`.  In the `noResult`
case `cursor.description` is `None` and `cursor.rowcount` is the
driver-reported value (`-1` when no count is available). -/
structure DbEnv where
  connect : String → Nat → Option String
  exec : String → ExecOutcome

/-- Observable effects of one call: successful connection
acquisitions, `conn.close()` calls, `conn.commit()` calls, the
statements executed in order, and the `connect_timeout` passed to the
driver (when a connection was attempted). -/
structure Trace where
  acquires : Nat
  closes : Nat
  commits : Nat
  executed : List String
  connectTimeoutUsed : Option Nat
deriving DecidableEq

def trace0 : Trace :=
  { acquires := 0, closes := 0, commits := 0, executed := [], connectTimeoutUsed := none }

/-- The response dictionary of `execute_sql`. -/
structure ExecResponse where
  status : String
  message : String
  rows : List Row
  row_count : Int
  columns : List String
deriving DecidableEq

def readOnlyMsg : String :=
  "Server is in read-only mode. Only SELECT queries are allowed."

def rowsBaseMsg (n : Nat) : String :=
  "Query executed successfully. Returned " ++ toString n ++ " rows."

def limitedNote (m : Nat) : String :=
  " (Limited to " ++ toString m ++ " rows)"

def affectedMsg (n : Int) : String :=
  "Query executed successfully. " ++ toString n ++ " rows affected."

/-- The `SET statement_timeout = {timeout_ms}` statement text
(src/server.py:130-131), with `timeout_ms = config.get('query_timeout', 30) * 1000`. -/
def setStmtOf (cfg : Config) : String :=
  "SET statement_timeout = " ++ toString (cfg.query_timeout.getD 30 * 1000)

/-- `execute_sql` (src/server.py:94-194).  The whole body sits in one
`try`; `except psycopg2.Error` and `except Exception` turn raised
errors into error responses with empty `rows`/`columns` and
`row_count = 0`.  There is no `finally`, so a statement that raises
after the connection was acquired leaves the connection unclosed. -/
def execute_sql (cfg : Config) (env : DbEnv) (database query : String) :
    ExecResponse × Trace :=
  if cfg.read_only.getD false && !(is_read_only_query query) then
    ({ status := "error", message := readOnlyMsg, rows := [], row_count := 0, columns := [] },
     trace0)
  else
    match connAttempt cfg with
    | AcquireStep.keyErr f =>
      ({ status := "error", message := "Error: " ++ keyErrText f,
         rows := [], row_count := 0, columns := [] }, trace0)
    | AcquireStep.proceed _ _ _ _ =>
      let cto := cfg.query_timeout.getD 30
      match env.connect database cto with
      | some m =>
        ({ status := "error", message := "Database error: " ++ m,
           rows := [], row_count := 0, columns := [] },
         { acquires := 0, closes := 0, commits := 0, executed := [],
           connectTimeoutUsed := some cto })
      | none =>
        let ts := setStmtOf cfg
        match env.exec ts with
        | ExecOutcome.raiseDb m =>
          ({ status := "error", message := "Database error: " ++ m,
             rows := [], row_count := 0, columns := [] },
           { acquires := 1, closes := 0, commits := 0, executed := [ts],
             connectTimeoutUsed := some cto })
        | ExecOutcome.raiseOther m =>
          ({ status := "error", message := "Error: " ++ m,
             rows := [], row_count := 0, columns := [] },
           { acquires := 1, closes := 0, commits := 0, executed := [ts],
             connectTimeoutUsed := some cto })
        | ExecOutcome.resultSet _ _ | ExecOutcome.noResult _ =>
          match env.exec query with
          | ExecOutcome.raiseDb m =>
            ({ status := "error", message := "Database error: " ++ m,
               rows := [], row_count := 0, columns := [] },
             { acquires := 1, closes := 0, commits := 0, executed := [ts, query],
               connectTimeoutUsed := some cto })
          | ExecOutcome.raiseOther m =>
            ({ status := "error", message := "Error: " ++ m,
               rows := [], row_count := 0, columns := [] },
             { acquires := 1, closes := 0, commits := 0, executed := [ts, query],
               connectTimeoutUsed := some cto })
          | ExecOutcome.resultSet cols allRows =>
            let maxRows := cfg.max_rows.getD 1000
            let results := allRows.take maxRows
            let rc := results.length
            let msg := rowsBaseMsg rc ++
              (if allRows.length > maxRows then limitedNote maxRows else "")
            ({ status := "success", message := msg, rows := results,
               row_count := (rc : Int), columns := cols },
             { acquires := 1, closes := 1, commits := 0, executed := [ts, query],
               connectTimeoutUsed := some cto })
          | ExecOutcome.noResult n =>
            ({ status := "success", message := affectedMsg n, rows := [],
               row_count := n, columns := [] },
             { acquires := 1, closes := 1, commits := 1, executed := [ts, query],
               connectTimeoutUsed := some cto })

/-- One row of the `pg_database` catalog. -/
structure PgDatabase where
  datname : String
  datistemplate : Bool
deriving DecidableEq

/-- The fixed introspection statement of `list_databases`
(src/server.py:64-69), as one line. -/
def listQueryText : String :=
  "SELECT datname as database_name FROM pg_database WHERE datistemplate = false ORDER BY datname"

/-- SQL semantics of the fixed catalog query, as the external server
evaluates it: keep the rows with `datistemplate = false`, project
`datname`, and order ascending by `datname`. -/
def pgCatalogListQuery (dbs : List PgDatabase) : List String :=
  List.insertionSort (· ≤ ·) ((dbs.filter (fun d => !d.datistemplate)).map (fun d => d.datname))

/-- The external world for one `list_databases` call: connecting to
the `postgres` database fails, or the fixed query raises, or the
server holds the given `pg_database` catalog. -/
inductive ListDbOutcome where
  | connectFail (msg : String)
  | execFail (msg : String)
  | table (dbs : List PgDatabase)
deriving DecidableEq

/-- The response dictionary of `list_databases`: the success branch
carries `databases` and `count`, the error branch carries `message`
and an empty `databases`. -/
structure ListResponse where
  status : String
  databases : List String
  count : Option Nat
  message : Option String
deriving DecidableEq

/-- `list_databases` (src/server.py:54-91).  The body sits in one
`try` with `except Exception` returning an error response; there is no
`finally`, so a query that raises after connecting leaves the
connection unclosed. -/
def list_databases (cfg : Config) (env : ListDbOutcome) : ListResponse × Trace :=
  match connAttempt cfg with
  | AcquireStep.keyErr f =>
    ({ status := "error", databases := [], count := none, message := some (keyErrText f) },
     trace0)
  | AcquireStep.proceed _ _ _ _ =>
    let cto := cfg.query_timeout.getD 30
    match env with
    | ListDbOutcome.connectFail m =>
      ({ status := "error", databases := [], count := none, message := some m },
       { acquires := 0, closes := 0, commits := 0, executed := [],
         connectTimeoutUsed := some cto })
    | ListDbOutcome.execFail m =>
      ({ status := "error", databases := [], count := none, message := some m },
       { acquires := 1, closes := 0, commits := 0, executed := [listQueryText],
         connectTimeoutUsed := some cto })
    | ListDbOutcome.table dbs =>
      let names := pgCatalogListQuery dbs
      ({ status := "success", databases := names, count := some names.length, message := none },
       { acquires := 1, closes := 1, commits := 0, executed := [listQueryText],
         connectTimeoutUsed := some cto })

/-- A statement outcome other than a raised exception: the `except`
clauses are not entered. -/
def notRaise : ExecOutcome → Bool
  | ExecOutcome.raiseDb _ => false
  | ExecOutcome.raiseOther _ => false
  | ExecOutcome.resultSet _ _ => true
  | ExecOutcome.noResult _ => true

/-- A complete configuration with all required fields present and all
optional fields absent (so every default applies). -/
def cfgFull : Config :=
  { host := some "localhost", port := some 5432, user := some "u", password := some "p",
    read_only := none, query_timeout := none, max_rows := none }

/-- `cfgFull` with read-only mode on. -/
def cfgRO : Config := { cfgFull with read_only := some true }

/-- `cfgFull` with `max_rows = 2`. -/
def cfgMax2 : Config := { cfgFull with max_rows := some 2 }

/-- The empty parsed configuration: valid JSON, every key absent. -/
def emptyConfig : Config :=
  { host := none, port := none, user := none, password := none,
    read_only := none, query_timeout := none, max_rows := none }

/-- A world where connecting succeeds and every statement runs with no
result set and no affected rows. -/
def envPlain : DbEnv :=
  { connect := fun _ _ => none, exec := fun _ => ExecOutcome.noResult 0 }

/-- A world where connecting succeeds, the timeout statement runs, and
every other statement raises a database error mid-execution. -/
def envRaiseQuery : DbEnv :=
  { connect := fun _ _ => none,
    exec := fun s =>
      if s = setStmtOf cfgFull then ExecOutcome.noResult 0
      else ExecOutcome.raiseDb "syntax error at end of input" }

/-- A sample query returning five one-column rows. -/
def qSel : String := "SELECT id FROM t ORDER BY id"

def fiveRows : List Row :=
  [[("id", PgValue.intv 1)], [("id", PgValue.intv 2)], [("id", PgValue.intv 3)],
   [("id", PgValue.intv 4)], [("id", PgValue.intv 5)]]

/-- A world where `qSel` returns `fiveRows` and everything else runs
with no result set. -/
def envSel : DbEnv :=
  { connect := fun _ _ => none,
    exec := fun s =>
      if s = qSel then ExecOutcome.resultSet ["id"] fiveRows
      else ExecOutcome.noResult 0 }

/-- A sample mutating statement. -/
def qIns : String := "INSERT INTO t(x) VALUES (1)"

/-- A world where `qIns` affects one row and everything else runs with
no result set and no affected rows. -/
def envIns : DbEnv :=
  { connect := fun _ _ => none,
    exec := fun s =>
      if s = qIns then ExecOutcome.noResult 1 else ExecOutcome.noResult 0 }

/-- A sample DDL statement. -/
def qDDL : String := "CREATE TABLE t (x int)"

/-- A world where `qDDL` yields the driver sentinel `rowcount = -1`
and everything else runs with no result set and no affected rows. -/
def envDDL : DbEnv :=
  { connect := fun _ _ => none,
    exec := fun s =>
      if s = qDDL then ExecOutcome.noResult (-1) else ExecOutcome.noResult 0 }

/-- A sample catalog with one template and two ordinary databases. -/
def sampleCatalog : List PgDatabase :=
  [{ datname := "template1", datistemplate := true },
   { datname := "postgres", datistemplate := false },
   { datname := "appdb", datistemplate := false }]

/-- Evaluation of `execute_sql` on the row-returning path: gate passed,
all required configuration fields present, connection acquired, the
timeout statement did not raise, and the query produced a described
result set. -/
theorem execute_sql_eval_resultSet (cfg : Config) (env : DbEnv) (db q : String)
    (h u pw : String) (pt : Nat) (cols : List String) (allRows : List Row)
    (hgate : (cfg.read_only.getD false && !(is_read_only_query q)) = false)
    (hacq : connAttempt cfg = AcquireStep.proceed h pt u pw)
    (hconn : env.connect db (cfg.query_timeout.getD 30) = none)
    (hset : notRaise (env.exec (setStmtOf cfg)) = true)
    (hq : env.exec q = ExecOutcome.resultSet cols allRows) :
    execute_sql cfg env db q =
      ({ status := "success",
         message := rowsBaseMsg (allRows.take (cfg.max_rows.getD 1000)).length ++
           (if allRows.length > cfg.max_rows.getD 1000
            then limitedNote (cfg.max_rows.getD 1000) else ""),
         rows := allRows.take (cfg.max_rows.getD 1000),
         row_count := ((allRows.take (cfg.max_rows.getD 1000)).length : Int),
         columns := cols },
       { acquires := 1, closes := 1, commits := 0, executed := [setStmtOf cfg, q],
         connectTimeoutUsed := some (cfg.query_timeout.getD 30) }) := by
  rcases hts : env.exec (setStmtOf cfg) with m | m | ⟨c, r⟩ | n
  · rw [hts] at hset; simp [notRaise] at hset
  · rw [hts] at hset; simp [notRaise] at hset
  · simp [execute_sql, hgate, hacq, hconn, hts, hq]
  · simp [execute_sql, hgate, hacq, hconn, hts, hq]

/-- Evaluation of `execute_sql` on the no-result-set path: gate passed,
configuration complete, connection acquired, the timeout statement did
not raise, and the query produced no result set with driver rowcount
`n`. -/
theorem execute_sql_eval_noResult (cfg : Config) (env : DbEnv) (db q : String)
    (h u pw : String) (pt : Nat) (n : Int)
    (hgate : (cfg.read_only.getD false && !(is_read_only_query q)) = false)
    (hacq : connAttempt cfg = AcquireStep.proceed h pt u pw)
    (hconn : env.connect db (cfg.query_timeout.getD 30) = none)
    (hset : notRaise (env.exec (setStmtOf cfg)) = true)
    (hq : env.exec q = ExecOutcome.noResult n) :
    execute_sql cfg env db q =
      ({ status := "success", message := affectedMsg n, rows := [],
         row_count := n, columns := [] },
       { acquires := 1, closes := 1, commits := 1, executed := [setStmtOf cfg, q],
         connectTimeoutUsed := some (cfg.query_timeout.getD 30) }) := by
  rcases hts : env.exec (setStmtOf cfg) with m | m | ⟨c, r⟩ | n
  · rw [hts] at hset; simp [notRaise] at hset
  · rw [hts] at hset; simp [notRaise] at hset
  · simp [execute_sql, hgate, hacq, hconn, hts, hq]
  · simp [execute_sql, hgate, hacq, hconn, hts, hq]

/-- In every world, `execute_sql` returns a response whose status is
`success` or `error`, and every error response carries empty rows and
columns and zero `row_count`. -/
theorem exec_status_shape (cfg : Config) (env : DbEnv) (db q : String) :
    ((execute_sql cfg env db q).1.status = "success" ∨
     (execute_sql cfg env db q).1.status = "error") ∧
    ((execute_sql cfg env db q).1.status = "error" →
      (execute_sql cfg env db q).1.rows = [] ∧
      (execute_sql cfg env db q).1.row_count = 0 ∧
      (execute_sql cfg env db q).1.columns = []) := by
  by_cases hro : (cfg.read_only.getD false && !(is_read_only_query q)) = true
  · simp [execute_sql, hro, trace0]
  · rcases hca : connAttempt cfg with f | ⟨h, pt, u, pw⟩ <;>
      rcases hcn : env.connect db (cfg.query_timeout.getD 30) with _ | m <;>
      rcases hts : env.exec (setStmtOf cfg) with m1 | m1 | ⟨c1, r1⟩ | n1 <;>
      rcases hq : env.exec q with m2 | m2 | ⟨c2, r2⟩ | n2 <;>
      simp [execute_sql, hro, hca, hcn, hts, hq, trace0]

/-- In every world, `list_databases` returns a response whose status is
`success` or `error`, and every error response carries an empty
`databases` list. -/
theorem list_status_shape (cfg : Config) (lenv : ListDbOutcome) :
    ((list_databases cfg lenv).1.status = "success" ∨
     (list_databases cfg lenv).1.status = "error") ∧
    ((list_databases cfg lenv).1.status = "error" →
      (list_databases cfg lenv).1.databases = []) := by
  rcases hca : connAttempt cfg with f | ⟨h, pt, u, pw⟩ <;>
    rcases hl : lenv with m | m | dbs <;>
    simp [list_databases, hca, trace0]

/-- Claim C1 (code bug evidence): when the caller's statement raises a
database error after the connection was acquired, `execute_sql` returns
a structured error but never closes the connection (one acquisition,
zero closes); likewise `list_databases` when its fixed query raises.
This contradicts the claimed release-exactly-once invariant: there is
no `finally` in the source, so the error paths skip both
`conn.close()` calls. -/
theorem connection_leak_on_midquery_error :
    (execute_sql cfgFull envRaiseQuery "db" "SELECT FROM").2.acquires = 1 ∧
    (execute_sql cfgFull envRaiseQuery "db" "SELECT FROM").2.closes = 0 ∧
    (execute_sql cfgFull envRaiseQuery "db" "SELECT FROM").1.status = "error" ∧
    (list_databases cfgFull (ListDbOutcome.execFail "server closed the connection unexpectedly")).2.acquires = 1 ∧
    (list_databases cfgFull (ListDbOutcome.execFail "server closed the connection unexpectedly")).2.closes = 0 := by
  decide

/-- Claim C2: with `read_only` enabled and a query whose trimmed,
uppercased form starts with none of the safe keywords, `execute_sql`
returns the read-only error response with empty rows and columns and
zero `row_count`, and acquires no connection. -/
theorem readonly_gate_blocks (cfg : Config) (env : DbEnv) (db q : String)
    (hro : cfg.read_only.getD false = true)
    (hq : is_read_only_query q = false) :
    (execute_sql cfg env db q).1 =
      { status := "error", message := readOnlyMsg, rows := [], row_count := 0, columns := [] } ∧
    (execute_sql cfg env db q).2.acquires = 0 := by
  simp [execute_sql, hro, hq, trace0]

/-- Witness for C2: read-only configuration, `DELETE FROM orders`. -/
theorem readonly_gate_blocks_witness :
    (execute_sql cfgRO envPlain "sales" "DELETE FROM orders").1 =
      { status := "error", message := readOnlyMsg, rows := [], row_count := 0, columns := [] } ∧
    (execute_sql cfgRO envPlain "sales" "DELETE FROM orders").2.acquires = 0 :=
  readonly_gate_blocks cfgRO envPlain "sales" "DELETE FROM orders" (by decide) (by decide)

/-- Claim C3: on the row-returning path the number of returned rows is
`min` of the true row count and `max_rows`, the columns are the result
metadata regardless of row count, `row_count` equals the number of
returned rows, and the truncation note is appended to the message
exactly when the true row count exceeds `max_rows`. -/
theorem rows_capped (cfg : Config) (env : DbEnv) (db q : String)
    (h u pw : String) (pt : Nat) (cols : List String) (allRows : List Row)
    (hgate : (cfg.read_only.getD false && !(is_read_only_query q)) = false)
    (hacq : connAttempt cfg = AcquireStep.proceed h pt u pw)
    (hconn : env.connect db (cfg.query_timeout.getD 30) = none)
    (hset : notRaise (env.exec (setStmtOf cfg)) = true)
    (hq : env.exec q = ExecOutcome.resultSet cols allRows) :
    (execute_sql cfg env db q).1.rows.length = min allRows.length (cfg.max_rows.getD 1000) ∧
    (execute_sql cfg env db q).1.columns = cols ∧
    (execute_sql cfg env db q).1.row_count = ((execute_sql cfg env db q).1.rows.length : Int) ∧
    (allRows.length > cfg.max_rows.getD 1000 →
      (execute_sql cfg env db q).1.message =
        rowsBaseMsg (min allRows.length (cfg.max_rows.getD 1000)) ++
          limitedNote (cfg.max_rows.getD 1000)) ∧
    (allRows.length ≤ cfg.max_rows.getD 1000 →
      (execute_sql cfg env db q).1.message =
        rowsBaseMsg (min allRows.length (cfg.max_rows.getD 1000))) := by
  rw [execute_sql_eval_resultSet cfg env db q h u pw pt cols allRows hgate hacq hconn hset hq]
  refine ⟨by simp [List.length_take, Nat.min_comm], rfl, rfl, ?_, ?_⟩
  · intro hgt
    rw [if_pos hgt]
    simp [List.length_take, Nat.min_comm]
  · intro hle
    rw [if_neg (Nat.not_lt.mpr hle)]
    simp [List.length_take, Nat.min_comm]

/-- Witness for C3: `max_rows = 2` and a five-row result set. -/
theorem rows_capped_witness :
    (execute_sql cfgMax2 envSel "db" qSel).1.rows.length = min fiveRows.length (cfgMax2.max_rows.getD 1000) ∧
    (execute_sql cfgMax2 envSel "db" qSel).1.columns = ["id"] ∧
    (execute_sql cfgMax2 envSel "db" qSel).1.row_count = ((execute_sql cfgMax2 envSel "db" qSel).1.rows.length : Int) ∧
    (fiveRows.length > cfgMax2.max_rows.getD 1000 →
      (execute_sql cfgMax2 envSel "db" qSel).1.message =
        rowsBaseMsg (min fiveRows.length (cfgMax2.max_rows.getD 1000)) ++
          limitedNote (cfgMax2.max_rows.getD 1000)) ∧
    (fiveRows.length ≤ cfgMax2.max_rows.getD 1000 →
      (execute_sql cfgMax2 envSel "db" qSel).1.message =
        rowsBaseMsg (min fiveRows.length (cfgMax2.max_rows.getD 1000))) :=
  rows_capped cfgMax2 envSel "db" qSel "localhost" "u" "p" 5432 ["id"] fiveRows
    (by decide) (by decide) rfl (by decide) (by decide)

/-- Claim C4: on the no-result-set path, `execute_sql` commits the
transaction exactly once and returns success with empty rows and
columns and `row_count` equal to the driver-reported affected count. -/
theorem mutation_commit_affected (cfg : Config) (env : DbEnv) (db q : String)
    (h u pw : String) (pt : Nat) (n : Int)
    (hgate : (cfg.read_only.getD false && !(is_read_only_query q)) = false)
    (hacq : connAttempt cfg = AcquireStep.proceed h pt u pw)
    (hconn : env.connect db (cfg.query_timeout.getD 30) = none)
    (hset : notRaise (env.exec (setStmtOf cfg)) = true)
    (hq : env.exec q = ExecOutcome.noResult n) :
    (execute_sql cfg env db q).1 =
      { status := "success", message := affectedMsg n, rows := [],
        row_count := n, columns := [] } ∧
    (execute_sql cfg env db q).2.commits = 1 := by
  rw [execute_sql_eval_noResult cfg env db q h u pw pt n hgate hacq hconn hset hq]
  exact ⟨rfl, rfl⟩

/-- Witness for C4: an `INSERT` affecting one row. -/
theorem mutation_commit_affected_witness :
    (execute_sql cfgFull envIns "db" qIns).1 =
      { status := "success", message := affectedMsg 1, rows := [],
        row_count := 1, columns := [] } ∧
    (execute_sql cfgFull envIns "db" qIns).2.commits = 1 :=
  mutation_commit_affected cfgFull envIns "db" qIns "localhost" "u" "p" 5432 1
    (by decide) (by decide) rfl (by decide) (by decide)

/-- Claim C5: in every world, both operations return a structured
response (status `success` or `error`, nothing propagates), every
error response of `execute_sql` has empty `rows` and `columns` and
`row_count = 0`, and every error response of `list_databases` has an
empty `databases` list. -/
theorem boundary_structured_errors (cfg : Config) (env : DbEnv) (db q : String)
    (lenv : ListDbOutcome) :
    ((execute_sql cfg env db q).1.status = "success" ∨
     (execute_sql cfg env db q).1.status = "error") ∧
    ((execute_sql cfg env db q).1.status = "error" →
      (execute_sql cfg env db q).1.rows = [] ∧
      (execute_sql cfg env db q).1.row_count = 0 ∧
      (execute_sql cfg env db q).1.columns = []) ∧
    ((list_databases cfg lenv).1.status = "success" ∨
     (list_databases cfg lenv).1.status = "error") ∧
    ((list_databases cfg lenv).1.status = "error" →
      (list_databases cfg lenv).1.databases = []) := by
  exact ⟨(exec_status_shape cfg env db q).1, (exec_status_shape cfg env db q).2,
    (list_status_shape cfg lenv).1, (list_status_shape cfg lenv).2⟩

/-- Witness for C5: a mid-query database error yields an error response
with the empty shape. -/
theorem boundary_structured_errors_witness :
    (execute_sql cfgFull envRaiseQuery "db" "SELECT 1").1.rows = [] ∧
    (execute_sql cfgFull envRaiseQuery "db" "SELECT 1").1.row_count = 0 ∧
    (execute_sql cfgFull envRaiseQuery "db" "SELECT 1").1.columns = [] := by
  have hb := boundary_structured_errors cfgFull envRaiseQuery "db" "SELECT 1"
    (ListDbOutcome.execFail "boom")
  exact hb.2.1 (by decide)

/-- Claim C6 counterexample: a syntactically valid configuration with
every required field absent is accepted by `load_config`, so startup
succeeds and the process serves, contrary to the claim that absent
required fields are a fatal startup error. -/
theorem startup_accepts_missing_required_fields :
    startupSucceeds (ConfigFile.parsed emptyConfig) = true ∧
    emptyConfig.host = none ∧ emptyConfig.port = none ∧
    emptyConfig.user = none ∧ emptyConfig.password = none := by
  decide

/-- Claim C6 as amended: only a missing `config.json` or malformed JSON
is a fatal startup error; any parsed configuration is accepted at
startup even with required fields absent, and such calls fail later,
per request, with a structured error and no connection attempt. -/
theorem startup_fatal_only_for_missing_or_malformed_file (m : String) (cfg : Config) :
    startupSucceeds ConfigFile.missing = false ∧
    startupSucceeds (ConfigFile.malformed m) = false ∧
    startupSucceeds (ConfigFile.parsed cfg) = true ∧
    (execute_sql emptyConfig envPlain "db" "SELECT 1").1.status = "error" ∧
    (execute_sql emptyConfig envPlain "db" "SELECT 1").2.acquires = 0 := by
  refine ⟨rfl, rfl, rfl, by decide, by decide⟩

/-- Claim C7: a successful `list_databases` returns exactly the
non-template database names in ascending order with `count` equal to
their number; a connection failure or a raised query yields the error
response with an empty `databases` list. -/
theorem list_db_sorted_nontemplate (cfg : Config) (dbs : List PgDatabase) (m : String)
    (h u pw : String) (pt : Nat)
    (hacq : connAttempt cfg = AcquireStep.proceed h pt u pw) :
    ((list_databases cfg (ListDbOutcome.table dbs)).1.status = "success" ∧
     List.Sorted (· ≤ ·) (list_databases cfg (ListDbOutcome.table dbs)).1.databases ∧
     (∀ n ∈ (list_databases cfg (ListDbOutcome.table dbs)).1.databases,
        ∃ d ∈ dbs, d.datname = n ∧ d.datistemplate = false) ∧
     (list_databases cfg (ListDbOutcome.table dbs)).1.count =
       some (list_databases cfg (ListDbOutcome.table dbs)).1.databases.length) ∧
    (list_databases cfg (ListDbOutcome.connectFail m)).1 =
      { status := "error", databases := [], count := none, message := some m } ∧
    (list_databases cfg (ListDbOutcome.execFail m)).1 =
      { status := "error", databases := [], count := none, message := some m } := by
  simp only [list_databases, hacq]
  refine ⟨⟨by trivial, ?_, ?_, by trivial⟩, by trivial, by trivial⟩
  · exact List.sorted_insertionSort _ _
  · intro n hn
    have hmem : n ∈ (dbs.filter (fun d => !d.datistemplate)).map (fun d => d.datname) :=
      ((List.perm_insertionSort _ _).mem_iff).mp hn
    rcases List.mem_map.mp hmem with ⟨d, hd, hdn⟩
    rcases List.mem_filter.mp hd with ⟨hd1, hd2⟩
    exact ⟨d, hd1, hdn, by simpa using hd2⟩

/-- Witness for C7: a catalog with one template and two ordinary
databases, plus a connection failure and a raised query. -/
theorem list_db_sorted_nontemplate_witness :
    ((list_databases cfgFull (ListDbOutcome.table sampleCatalog)).1.status = "success" ∧
     List.Sorted (· ≤ ·) (list_databases cfgFull (ListDbOutcome.table sampleCatalog)).1.databases ∧
     (∀ n ∈ (list_databases cfgFull (ListDbOutcome.table sampleCatalog)).1.databases,
        ∃ d ∈ sampleCatalog, d.datname = n ∧ d.datistemplate = false) ∧
     (list_databases cfgFull (ListDbOutcome.table sampleCatalog)).1.count =
       some (list_databases cfgFull (ListDbOutcome.table sampleCatalog)).1.databases.length) ∧
    (list_databases cfgFull (ListDbOutcome.connectFail "could not connect to server")).1 =
      { status := "error", databases := [], count := none,
        message := some "could not connect to server" } ∧
    (list_databases cfgFull (ListDbOutcome.execFail "could not connect to server")).1 =
      { status := "error", databases := [], count := none,
        message := some "could not connect to server" } :=
  list_db_sorted_nontemplate cfgFull sampleCatalog "could not connect to server"
    "localhost" "u" "p" 5432 rfl

/-- Claim C8: past the policy gate with a connection acquired, the
first statement executed is `SET statement_timeout` with
`query_timeout * 1000` milliseconds (default 30 seconds), executed
before the caller's query, and the connect-level timeout passed to the
driver is the same `query_timeout` value. -/
theorem timeout_configured (cfg : Config) (env : DbEnv) (db q : String)
    (h u pw : String) (pt : Nat)
    (hgate : (cfg.read_only.getD false && !(is_read_only_query q)) = false)
    (hacq : connAttempt cfg = AcquireStep.proceed h pt u pw)
    (hconn : env.connect db (cfg.query_timeout.getD 30) = none) :
    setStmtOf cfg = "SET statement_timeout = " ++ toString (cfg.query_timeout.getD 30 * 1000) ∧
    ((execute_sql cfg env db q).2.executed = [setStmtOf cfg] ∨
     (execute_sql cfg env db q).2.executed = [setStmtOf cfg, q]) ∧
    (execute_sql cfg env db q).2.connectTimeoutUsed = some (cfg.query_timeout.getD 30) := by
  refine ⟨rfl, ?_, ?_⟩ <;>
  · rcases hts : env.exec (setStmtOf cfg) with m | m | ⟨c, r⟩ | n <;>
      rcases hq : env.exec q with m2 | m2 | ⟨c2, r2⟩ | n2 <;>
      simp [execute_sql, hgate, hacq, hconn, hts, hq]

/-- Witness for C8: the default configuration and a plain world. -/
theorem timeout_configured_witness :
    (setStmtOf cfgFull = "SET statement_timeout = " ++ toString (cfgFull.query_timeout.getD 30 * 1000) ∧
    ((execute_sql cfgFull envPlain "db" "SELECT 1").2.executed = [setStmtOf cfgFull] ∨
     (execute_sql cfgFull envPlain "db" "SELECT 1").2.executed = [setStmtOf cfgFull, "SELECT 1"]) ∧
    (execute_sql cfgFull envPlain "db" "SELECT 1").2.connectTimeoutUsed = some (cfgFull.query_timeout.getD 30)) :=
  timeout_configured cfgFull envPlain "db" "SELECT 1" "localhost" "u" "p" 5432
    (by decide) (by decide) rfl

/-- Claim C9: the classifier is a raw textual check: a query whose
trimmed uppercased text extends an allowed keyword with no word
boundary is classified read-only, and in read-only mode `execute_sql`
proceeds past the gate and acquires a connection. -/
theorem keyword_matched_as_raw_text_not_word :
    is_read_only_query "SHOWING COLUMNS" = true ∧
    is_read_only_query "SELECTX" = true ∧
    (execute_sql cfgRO envPlain "db" "SHOWING COLUMNS").2.acquires = 1 ∧
    (execute_sql cfgRO envPlain "db" "SHOWING COLUMNS").1.status = "success" := by
  decide

/-- Claim C10: a statement with no result set for which the driver
reports no affected-row count (`rowcount = -1`, e.g. DDL) yields a
success response whose `row_count` is the sentinel `-1`, not `0`, with
empty rows and columns. -/
theorem ddl_sentinel_row_count (cfg : Config) (env : DbEnv) (db q : String)
    (h u pw : String) (pt : Nat)
    (hgate : (cfg.read_only.getD false && !(is_read_only_query q)) = false)
    (hacq : connAttempt cfg = AcquireStep.proceed h pt u pw)
    (hconn : env.connect db (cfg.query_timeout.getD 30) = none)
    (hset : notRaise (env.exec (setStmtOf cfg)) = true)
    (hq : env.exec q = ExecOutcome.noResult (-1)) :
    (execute_sql cfg env db q).1.status = "success" ∧
    (execute_sql cfg env db q).1.row_count = -1 ∧
    (execute_sql cfg env db q).1.row_count ≠ 0 ∧
    (execute_sql cfg env db q).1.rows = [] ∧
    (execute_sql cfg env db q).1.columns = [] := by
  rw [execute_sql_eval_noResult cfg env db q h u pw pt (-1) hgate hacq hconn hset hq]
  refine ⟨rfl, rfl, by simp, rfl, rfl⟩

/-- Witness for C10: `CREATE TABLE` with the driver sentinel. -/
theorem ddl_sentinel_row_count_witness :
    (execute_sql cfgFull envDDL "db" qDDL).1.status = "success" ∧
    (execute_sql cfgFull envDDL "db" qDDL).1.row_count = -1 ∧
    (execute_sql cfgFull envDDL "db" qDDL).1.row_count ≠ 0 ∧
    (execute_sql cfgFull envDDL "db" qDDL).1.rows = [] ∧
    (execute_sql cfgFull envDDL "db" qDDL).1.columns = [] :=
  ddl_sentinel_row_count cfgFull envDDL "db" qDDL "localhost" "u" "p" 5432
    (by decide) (by decide) rfl (by decide) (by decide)
